import Mathlib

/-!
Verification of the account (auth + otp) subsystem of the rental-house
FastAPI service.

The definitions below are a shallow embedding of the Python sources:
the user table (`app/account/auth/models/user.py`) becomes a list of
`User` records, the Redis hash holding a TOTP (`totp:users:{email}`,
written by `app/account/otp/repository/dal/totp.py`) becomes an
`Option TotpHash` threaded through every operation, and each raised
exception becomes an `Err` value carrying the exception class
(`ErrKind`) and the message string the Python code passes to it.
bcrypt (an external library) is abstracted as a `checkpw` parameter,
and the external `email_validator` call as a `validate_email`
parameter.
-/

namespace Rental

/-- Modelled from the spec: `toolkit.api.enums.Status`, whose source file is
not under `src/` (only its re-export in `toolkit/api/enums/__init__.py` is).
Members are the ones the spec and the `src/` call sites use. -/
inductive Status where
  | success
  | created
  | failure
  | error
  | conflict
  | forbidden
  | unauthorized
deriving DecidableEq, Repr

/-- Modelled from the spec: `toolkit.api.enums.HTTPStatusDoc`, whose source
file is not under `src/`. One member per HTTP status the `src/` call sites
reference. -/
inductive HTTPStatusDoc where
  | s200
  | s201
  | s400
  | s401
  | s403
  | s409
  | s422
  | s429
  | s500
  | s503
deriving DecidableEq, Repr

/-- The exception classes raised by the embedded code paths.
`userDoesNotExist`..`userAlreadyVerified` come from
`app/account/auth/helpers/exceptions.py`, the `totp*` kinds from
`app/account/otp/helpers/exceptions.py`, `validationError` from
`toolkit/api/exceptions`, `multipleResultsFound` is sqlalchemy's
`MultipleResultsFound` (propagated uncaught by `scalar_one`), and
`typeError` is Python's built-in `TypeError` for a call whose keyword
arguments do not bind to the callee's signature. -/
inductive ErrKind where
  | userDoesNotExist
  | userDuplicate
  | userInvalidCredentials
  | userAlreadyRegistered
  | userAlreadyVerified
  | multipleResultsFound
  | typeError
  | validationError
  | totpVerificationFailed
  | totpCreationFailed
  | totpRemovalFailed
  | totpAlreadySet
  | totpAttemptsIncrimination
  | totpAttemptsLimit
deriving DecidableEq, Repr

/-- A raised exception: its class and the message it was constructed with. -/
structure Err where
  kind : ErrKind
  message : String
deriving DecidableEq, Repr

namespace AuthMessages

def SUCCESS_REGISTER_MESSAGE : String :=
  "Registration successful. Otp has been sent to your email for verification."

def SUCCESS_LOGIN_MESSAGE : String :=
  "Login successful. Otp has been sent to your email for verification."

def SUCCESS_VERIFICATION : String := "Your account has been verified successfully!"

def FAILED_VERIFICATION : String := "Invalid or expired otp. Please try again."

def INVALID_CREDENTIALS : String := "Invalid email or password."

def EMAIL_ALREADY_TAKEN : String := "This email has been already taken"

def ALREADY_VERIFIED : String := "The user has been already verified"

def USER_NOT_EXIST : String := "User does not exists"

end AuthMessages

namespace OtpMessages

def OTP_SEND_SUCCESS : String := "Otp sent successfully"

def OTP_VERIFICATION_SUCCESS : String := "Otp verified successfully"

def OTP_CREATION_FAILED : String := "Otp creation failed. Check the logs!"

def OTP_VERIFICATION_FAILED : String := "Otp verification failed. Expired or not created"

def OTP_REMOVAL_FAILED : String := "Otp removal failed. Check the logs!"

def OTP_DATA_ERROR : String := "Error processing otp data. Check the logs!"

def OTP_TOO_MANY_REQUESTS : String := "Too many requests for verifying otp"

def OTP_ALREADY_ACTIVE : String := "User already has an active otp"

def OTP_SET_FAILED : String := "Failed to set OTP. Contact support"

def OTP_INCORRECT : String := "Incorrect OTP"

def EMAIL_INVALID : String := "Invalid email format"

def OTP_ONLY_DIGITS : String := "Otp must contain only digits"

def OTP_FIXED_DIGITS (otp_digits : Nat) : String :=
  "Otp must be " ++ toString otp_digits ++ " digits long"

end OtpMessages

/-! ## TOTP store (Redis hash at key `totp:users:{email}`)

The key naming function `_get_totp_key_name` is injective in the email, so
all operations for one identity touch exactly one key; the state for one
identity is the hash stored under that key, or `none` when the key is
absent (never created, expired, or unlinked). Redis hash fields may each
be absent, hence the two `Option` fields. -/

/-- The Redis hash written by `TotpDataAccessLayer._get_totp_mapping`:
fields `hashed_totp` and `attempts`. -/
structure TotpHash where
  hashed_totp : Option String
  attempts : Option Int
deriving DecidableEq, Repr

/-- The store state for one identity: the hash at the identity's key, if
the key exists. -/
abbrev TState := Option TotpHash

/-- `TotpBusinessLogicLayer.MAX_VERIFY_ATTEMPTS`. -/
def MAX_VERIFY_ATTEMPTS : Int := 5

/-- `TotpDataAccessLayer.check_totp`: `EXISTS` on the key. -/
def check_totp (s : TState) : Bool := s.isSome

/-- `TotpDataAccessLayer.get_attempts`: `HGET key attempts`; `-1` when the
key (or field) is absent, otherwise the stored counter. -/
def get_attempts (s : TState) : Int :=
  match s with
  | some r =>
    match r.attempts with
    | some a => a
    | none => -1
  | none => -1

/-- `TotpDataAccessLayer.get_totp`: `HGET key hashed_totp`; raises
`TotpVerificationFailedError(OTP_VERIFICATION_FAILED)` when the value is
falsy (absent key, absent field, or empty string). -/
def get_totp (s : TState) : Except Err String :=
  match s with
  | some r =>
    match r.hashed_totp with
    | some h =>
      if h = "" then .error ⟨.totpVerificationFailed, OtpMessages.OTP_VERIFICATION_FAILED⟩
      else .ok h
    | none => .error ⟨.totpVerificationFailed, OtpMessages.OTP_VERIFICATION_FAILED⟩
  | none => .error ⟨.totpVerificationFailed, OtpMessages.OTP_VERIFICATION_FAILED⟩

/-- `TotpDataAccessLayer.increment_attempts`: `HINCRBY key attempts 1`,
with Redis semantics (an absent key or field counts as 0 before the
increment). The `ResponseError` branch is unreachable here because the
`attempts` field only ever holds an integer. -/
def increment_attempts (s : TState) : TState :=
  match s with
  | some r => some ⟨r.hashed_totp, some (r.attempts.getD 0 + 1)⟩
  | none => some ⟨none, some 1⟩

/-- `TotpDataAccessLayer.delete_totp`: `UNLINK key`; raises
`TotpRemovalFailedError` when the key did not exist. -/
def delete_totp (s : TState) : Except Err Bool × TState :=
  match s with
  | some _ => (.ok true, none)
  | none => (.error ⟨.totpRemovalFailed, OtpMessages.OTP_REMOVAL_FAILED⟩, s)

/-- `TotpDataAccessLayer.set_totp`: a pipeline of
`HSET key hashed_totp h attempts 0` followed by `EXPIRE`. `HSET` returns
the number of newly created fields; the code raises
`TotpCreationFailedError` when that count is falsy (0), after the fields
were already overwritten. `EXPIRE` cannot fail here because the key
exists after the `HSET`. -/
def dal_set_totp (s : TState) (hashed_totp : String) : Except Err Bool × TState :=
  let newFields : Nat :=
    match s with
    | none => 2
    | some r =>
      (if r.hashed_totp.isNone then 1 else 0) + (if r.attempts.isNone then 1 else 0)
  let s1 : TState := some ⟨some hashed_totp, some 0⟩
  if newFields = 0 then (.error ⟨.totpCreationFailed, OtpMessages.OTP_CREATION_FAILED⟩, s1)
  else (.ok true, s1)

/-- `TotpBusinessLogicLayer.set_totp`: raises
`TotpAlreadySetError(OTP_ALREADY_ACTIVE)` when `check_totp` finds an
existing key, otherwise delegates to the DAL. -/
def bll_set_totp (s : TState) (hashed_totp : String) : Except Err Bool × TState :=
  if check_totp s then (.error ⟨.totpAlreadySet, OtpMessages.OTP_ALREADY_ACTIVE⟩, s)
  else dal_set_totp s hashed_totp

/-- `TotpBusinessLogicLayer.verify_totp`: reads the attempt counter, raises
`TotpVerificationAttemptsLimitError(OTP_TOO_MANY_REQUESTS)` when
`attempts >= MAX_VERIFY_ATTEMPTS`, fetches the stored hash (raising
`TotpVerificationFailedError` when absent), increments the counter, then
compares via bcrypt (`checkpw`); on a match deletes the record and returns
`true`, otherwise returns `false`. -/
def bll_verify_totp (checkpw : String → String → Bool) (s : TState) (totp : String) :
    Except Err Bool × TState :=
  let user_attempts := get_attempts s
  if MAX_VERIFY_ATTEMPTS ≤ user_attempts then
    (.error ⟨.totpAttemptsLimit, OtpMessages.OTP_TOO_MANY_REQUESTS⟩, s)
  else
    match get_totp s with
    | .error e => (.error e, s)
    | .ok hashed_totp =>
      let s1 := increment_attempts s
      if checkpw totp hashed_totp then
        match delete_totp s1 with
        | (.ok _, s2) => (.ok true, s2)
        | (.error e, s2) => (.error e, s2)
      else (.ok false, s1)

/-- Runs `bll_verify_totp` over a list of candidate codes, threading the
store state (each raised error leaves the state as the operation left
it). -/
def run_verify (checkpw : String → String → Bool) : TState → List String → TState
  | s, [] => s
  | s, t :: ts => run_verify checkpw (bll_verify_totp checkpw s t).2 ts

/-- The `{status, message, documentation_link}` dictionaries returned by
the otp service and by `verify_registration`. -/
structure ApiResult where
  status : Status
  message : String
  documentation_link : HTTPStatusDoc
deriving DecidableEq, Repr

/-- Python `str.isdigit`: non-empty and all digits (stated over the
character list so it computes by kernel reduction). -/
def pyIsDigit (s : String) : Bool := !s.data.isEmpty && s.data.all (fun c => c.isDigit)

/-- `TotpService.verify_totp`: validates the email (external
`email_validator`, abstracted as `validate_email`) and the code format
(`_validate_totp`), runs the business layer, maps `true` to a success
dictionary and `false` to `TotpVerificationFailedError(OTP_VERIFICATION_FAILED)`;
raised errors propagate. -/
def service_verify_totp (checkpw : String → String → Bool)
    (validate_email : String → Bool) (otp_digits : Nat)
    (s : TState) (email totp : String) : Except Err ApiResult × TState :=
  if validate_email email = false then
    (.error ⟨.validationError, OtpMessages.EMAIL_INVALID⟩, s)
  else if pyIsDigit totp = false then
    (.error ⟨.validationError, OtpMessages.OTP_ONLY_DIGITS⟩, s)
  else if totp.length ≠ otp_digits then
    (.error ⟨.validationError, OtpMessages.OTP_FIXED_DIGITS otp_digits⟩, s)
  else
    match bll_verify_totp checkpw s totp with
    | (.ok true, s1) =>
      (.ok ⟨.success, OtpMessages.OTP_VERIFICATION_SUCCESS, .s200⟩, s1)
    | (.ok false, s1) =>
      (.error ⟨.totpVerificationFailed, OtpMessages.OTP_VERIFICATION_FAILED⟩, s1)
    | (.error e, s1) => (.error e, s1)

/-- `TotpService.set_totp`: validates the email, hashes a freshly
generated code (the hash is passed in, bcrypt being external), runs the
business layer, and maps success to a created dictionary. -/
def service_set_totp (validate_email : String → Bool)
    (s : TState) (email hashed_totp : String) : Except Err ApiResult × TState :=
  if validate_email email = false then
    (.error ⟨.validationError, OtpMessages.EMAIL_INVALID⟩, s)
  else
    match bll_set_totp s hashed_totp with
    | (.ok true, s1) => (.ok ⟨.created, OtpMessages.OTP_SEND_SUCCESS, .s201⟩, s1)
    | (.ok false, s1) =>
      (.error ⟨.totpCreationFailed, OtpMessages.OTP_CREATION_FAILED⟩, s1)
    | (.error e, s1) => (.error e, s1)

/-! ## User table (`account__auth__user`)

The table is a list of rows; the unique constraints on `username` and
`email` are the `IntegrityError` checks in `create_user`. -/

/-- A row of the user table (`app/account/auth/models/user.py`):
`username` and `email` are unique, `hashed_password` holds the bcrypt
hash, and the two flags drive the lookup filters below. -/
structure User where
  id : Nat
  username : String
  email : String
  hashed_password : String
  is_active : Bool
  is_verified : Bool
deriving DecidableEq, Repr

/-- The user table. -/
abbrev UserDb := List User

/-- A fresh primary key, standing in for the database sequence. -/
def freshId (db : UserDb) : Nat := db.foldr (fun u m => max u.id m) 0 + 1

/-- `UserDataAccessLayer.get_user_by_email`: `SELECT .. WHERE email = ..
AND is_verified = .. AND is_active = ..` consumed with `scalar_one`. The
Python defaults are `is_verified=True, is_active=True`; all call sites
below pass both explicitly, mirroring the defaulted Python calls. Zero
rows raise `NoResultFound`, turned into
`UserDoesNotExistError("User does not exists.")` by
`handle_no_result_found_error`; more than one row raises sqlalchemy's
`MultipleResultsFound`, which no caller catches. -/
def get_user_by_email (db : UserDb) (email : String) (is_verified is_active : Bool) :
    Except Err User :=
  match db.filter (fun u =>
      u.email == email && u.is_verified == is_verified && u.is_active == is_active) with
  | [u] => .ok u
  | [] => .error ⟨.userDoesNotExist, "User does not exists."⟩
  | _ => .error ⟨.multipleResultsFound,
      "Multiple rows were found when exactly one was required"⟩

/-- `UserDataAccessLayer.create_user`: `INSERT` with hardcoded
`is_active=True, is_verified=False`; a unique-constraint violation on
`username` or `email` becomes the corresponding `UserDuplicateError`
via `handle_integrity_error`. -/
def create_user (db : UserDb) (username email hashed_password : String) :
    Except Err (UserDb × User) :=
  if db.any (fun u => u.username == username) then
    .error ⟨.userDuplicate, "User with this username already exists"⟩
  else if db.any (fun u => u.email == email) then
    .error ⟨.userDuplicate, "User with this email already exists"⟩
  else
    let u : User := ⟨freshId db, username, email, hashed_password, true, false⟩
    .ok (db ++ [u], u)

/-- `UserDataAccessLayer.verify_user`: `UPDATE .. SET is_verified=True
WHERE id = ..`; a zero rowcount raises
`UserDoesNotExistError("User does not exist.")`. -/
def verify_user (db : UserDb) (user_id : Nat) : Except Err UserDb :=
  if db.countP (fun u => u.id == user_id) = 0 then
    .error ⟨.userDoesNotExist, "User does not exist."⟩
  else
    .ok (db.map (fun u =>
      if u.id = user_id then
        ⟨u.id, u.username, u.email, u.hashed_password, u.is_active, true⟩
      else u))

/-- The parameters `UserDataAccessLayer.create_user` declares
(`self` aside). -/
def create_user_params : List String := ["user_input", "hashed_password"]

/-- The keyword arguments `UserBusinessLogicLayer.handle_register` passes
to `create_user`. -/
def handle_register_create_user_kwargs : List String :=
  ["user_input", "hashed_password", "is_active", "is_verified"]

/-- Python call binding: the call enters the callee only when every
keyword argument names a declared parameter; otherwise the call raises
`TypeError` before the callee body runs. -/
def create_user_call_binds : Bool :=
  handle_register_create_user_kwargs.all (fun k => create_user_params.contains k)

def TYPE_ERROR_UNEXPECTED_KWARG : String :=
  "create_user() got an unexpected keyword argument is_active"

/-- `UserBusinessLogicLayer.handle_register`: looks the email up with the
default (verified-and-active) filter; a verified hit raises
`UserAlreadyRegisteredError(EMAIL_ALREADY_TAKEN)`, an unverified hit is
returned as-is, and on `UserDoesNotExistError` the code calls
`create_user(user_input=.., hashed_password=.., is_active=True,
is_verified=False)` — keyword arguments the callee does not declare. -/
def handle_register (db : UserDb) (username email hashed_password : String) :
    Except Err (UserDb × User) :=
  match get_user_by_email db email true true with
  | .ok user =>
    if user.is_verified then
      .error ⟨.userAlreadyRegistered, AuthMessages.EMAIL_ALREADY_TAKEN⟩
    else .ok (db, user)
  | .error e =>
    if e.kind = ErrKind.userDoesNotExist then
      if create_user_call_binds then create_user db username email hashed_password
      else .error ⟨.typeError, TYPE_ERROR_UNEXPECTED_KWARG⟩
    else .error e

/-- `UserBusinessLogicLayer.get_user_for_registration_verification`:
`get_user_by_email(email=email, is_active=True)` — `is_verified` keeps
its Python default `True` — then raises
`UserAlreadyVerified(ALREADY_VERIFIED)` when the returned user is
verified. -/
def get_user_for_registration_verification (db : UserDb) (email : String) :
    Except Err User :=
  match get_user_by_email db email true true with
  | .error e => .error e
  | .ok user =>
    if user.is_verified then
      .error ⟨.userAlreadyVerified, AuthMessages.ALREADY_VERIFIED⟩
    else .ok user

/-- The `{status, message, data, documentation_link}` dictionary
`UserService.authenticate` returns. -/
structure AuthApiResult where
  status : Status
  message : String
  data : User
  documentation_link : HTTPStatusDoc
deriving DecidableEq, Repr

/-- `UserService.verify_registration`: fetches the user via
`get_user_for_registration_verification`, runs
`TotpService.verify_totp`, and on a success status flips the user's flag
with `verify_user`; a non-success status would produce the failure
dictionary (dead in practice, the otp service raising instead). -/
def verify_registration (checkpw : String → String → Bool)
    (validate_email : String → Bool) (otp_digits : Nat)
    (db : UserDb) (s : TState) (email totp : String) :
    Except Err ApiResult × UserDb × TState :=
  match get_user_for_registration_verification db email with
  | .error e => (.error e, db, s)
  | .ok user =>
    match service_verify_totp checkpw validate_email otp_digits s user.email totp with
    | (.error e, s1) => (.error e, db, s1)
    | (.ok res, s1) =>
      if res.status = Status.success then
        match verify_user db user.id with
        | .error e => (.error e, db, s1)
        | .ok db1 =>
          (.ok ⟨.success, AuthMessages.SUCCESS_VERIFICATION, .s200⟩, db1, s1)
      else (.ok ⟨.failure, AuthMessages.FAILED_VERIFICATION, .s400⟩, db, s1)

/-- `UserService.authenticate`: looks the email up with the default
(verified-and-active) filter — an absent row propagates
`UserDoesNotExistError` from the DAL — then compares the password with
bcrypt (`check_password`), raising
`UserInvalidCredentials(INVALID_CREDENTIALS)` on mismatch, and finally
issues a login otp via `TotpService.set_totp`. -/
def authenticate (check_password : String → String → Bool)
    (validate_email : String → Bool) (db : UserDb) (s : TState)
    (email password hashed_totp : String) : Except Err AuthApiResult × TState :=
  match get_user_by_email db email true true with
  | .error e => (.error e, s)
  | .ok user =>
    if check_password password user.hashed_password = false then
      (.error ⟨.userInvalidCredentials, AuthMessages.INVALID_CREDENTIALS⟩, s)
    else
      match service_set_totp validate_email s user.email hashed_totp with
      | (.error e, s1) => (.error e, s1)
      | (.ok _, s1) =>
        (.ok ⟨.success, AuthMessages.SUCCESS_LOGIN_MESSAGE, user, .s200⟩, s1)

/-! ## Helper lemmas -/

/-- One `verify` step on a live record under the attempt budget: the
stored hash is fetched, the counter incremented, and the outcome hinges
on the bcrypt comparison alone — a match consumes the record, a mismatch
keeps it with the counter bumped. -/
theorem bll_verify_totp_live_step (checkpw : String → String → Bool) (h totp : String)
    (a : Int) (ha : a < MAX_VERIFY_ATTEMPTS) (hh : h ≠ "") :
    bll_verify_totp checkpw (some ⟨some h, some a⟩) totp =
      if checkpw totp h then (.ok true, none)
      else (.ok false, some ⟨some h, some (a + 1)⟩) := by
  have h1 : ¬ MAX_VERIFY_ATTEMPTS ≤ a := not_le.mpr ha
  simp only [bll_verify_totp, get_attempts, get_totp, increment_attempts, delete_totp,
    if_neg h1, if_neg hh, Option.getD_some]

/-- Running `verify` over a list of all-mismatching codes on a live
record adds the list's length to the attempt counter and keeps the
record, provided the budget is never reached along the way. -/
theorem run_verify_mismatch_attempts (checkpw : String → String → Bool) (h : String)
    (hh : h ≠ "") :
    ∀ (ts : List String), (∀ t ∈ ts, checkpw t h = false) →
      ∀ a : Int, a + ts.length ≤ MAX_VERIFY_ATTEMPTS →
        run_verify checkpw (some ⟨some h, some a⟩) ts
          = some ⟨some h, some (a + ts.length)⟩ := by
  intro ts
  induction ts with
  | nil => intro _ a _; simp [run_verify]
  | cons t ts ih =>
    intro hmiss a hbound
    have hb' : a + (ts.length : Int) + 1 ≤ MAX_VERIFY_ATTEMPTS := by
      have : ((t :: ts).length : Int) = (ts.length : Int) + 1 := by
        simp [List.length_cons]
      omega
    have ha : a < MAX_VERIFY_ATTEMPTS := by omega
    have hmt : checkpw t h = false := hmiss t (by simp)
    rw [run_verify, bll_verify_totp_live_step checkpw h t a ha hh]
    simp only [hmt, Bool.false_eq_true, if_false]
    have hrec := ih (fun x hx => hmiss x (List.mem_cons_of_mem _ hx)) (a + 1) (by omega)
    rw [hrec]
    have : a + 1 + (ts.length : Int) = a + ((t :: ts).length : Int) := by
      simp [List.length_cons]; omega
    rw [this]

/-! ## Claims -/

/-- Claim C1: the spec says `confirmRegistration` succeeds for an
existing unverified account and in no case reports the account as
non-existent. The code contradicts it: `get_user_by_email` keeps its
`is_verified=True` default in
`get_user_for_registration_verification`, so an existing active but
unverified user is invisible to the lookup and `verify_registration`
raises `UserDoesNotExistError` — the only users it can find are already
verified ones, for which it raises `UserAlreadyVerified`. The first
conjunct evaluates the failing input (active unverified user, matching
code); the second shows the already-verified half of the claim does
hold; the third shows the table is left unchanged (no flag flip). -/
theorem verify_registration_misreports_unverified_user :
    (verify_registration (fun t h => t == h) (fun _ => true) 6
      [⟨1, "alice", "a@b.com", "HPW", true, false⟩]
      (some ⟨some "123456", some 0⟩) "a@b.com" "123456").1
      = .error ⟨.userDoesNotExist, "User does not exists."⟩
    ∧ (verify_registration (fun t h => t == h) (fun _ => true) 6
      [⟨1, "alice", "a@b.com", "HPW", true, true⟩]
      (some ⟨some "123456", some 0⟩) "a@b.com" "123456").1
      = .error ⟨.userAlreadyVerified, AuthMessages.ALREADY_VERIFIED⟩
    ∧ (verify_registration (fun t h => t == h) (fun _ => true) 6
      [⟨1, "alice", "a@b.com", "HPW", true, false⟩]
      (some ⟨some "123456", some 0⟩) "a@b.com" "123456").2.1
      = [⟨1, "alice", "a@b.com", "HPW", true, false⟩] :=
  ⟨rfl, rfl, rfl⟩

/-- Claim C2: the spec says re-registering an unverified email is
idempotent (returns the pending row). The code contradicts it: the
verified-only default filter hides the unverified row, so
`handle_register` takes the create path and dies in the `TypeError` of
the `create_user` call (and would hit the duplicate-email constraint
even with matching signatures). The second conjunct shows the
verified-email half of the claim does hold
(`UserAlreadyRegisteredError`). -/
theorem handle_register_unverified_email_not_idempotent :
    handle_register [⟨1, "alice", "a@b.com", "HPW", true, false⟩] "alice" "a@b.com" "HPW2"
      = .error ⟨.typeError, TYPE_ERROR_UNEXPECTED_KWARG⟩
    ∧ handle_register [⟨1, "alice", "a@b.com", "HPW", true, true⟩] "alice" "a@b.com" "HPW2"
      = .error ⟨.userAlreadyRegistered, AuthMessages.EMAIL_ALREADY_TAKEN⟩ :=
  ⟨rfl, rfl⟩

/-- Claim C3: the spec says a non-existent identity and a wrong password
fail with the identical `InvalidCredentials` error. The code contradicts
it: an absent (or unverified, or inactive) row propagates
`UserDoesNotExistError("User does not exists.")` from the DAL, while a
wrong password raises
`UserInvalidCredentials("Invalid email or password.")` — different
class and different message, so the two cases are distinguishable. -/
theorem authenticate_distinguishes_missing_user_from_wrong_password :
    (authenticate (fun p h => p == h) (fun _ => true)
      [⟨1, "alice", "a@b.com", "HPW", true, true⟩] none "ghost@b.com" "HPW" "HT").1
      = .error ⟨.userDoesNotExist, "User does not exists."⟩
    ∧ (authenticate (fun p h => p == h) (fun _ => true)
      [⟨1, "alice", "a@b.com", "HPW", true, true⟩] none "a@b.com" "WRONG" "HT").1
      = .error ⟨.userInvalidCredentials, AuthMessages.INVALID_CREDENTIALS⟩
    ∧ (⟨.userDoesNotExist, "User does not exists."⟩ : Err)
        ≠ ⟨.userInvalidCredentials, AuthMessages.INVALID_CREDENTIALS⟩ :=
  ⟨rfl, rfl, by decide⟩

/-- Claim C4 counterexample: the claim quantifies over five `verify`
calls "regardless of whether each call matched or mismatched". Concrete
run refuting it: issue the code `123456`, make five verify calls of
which the first matches (consuming the record), then a sixth call with
the correct code — it raises the verification-failed error, not the
attempts-limit error the claim demands. -/
theorem c4_counterexample_match_then_no_attempts_limit :
    (bll_verify_totp (fun t h => t == h)
      (run_verify (fun t h => t == h) (some ⟨some "123456", some 0⟩)
        ["123456", "111111", "111111", "111111", "111111"]) "123456").1
      = .error ⟨.totpVerificationFailed, OtpMessages.OTP_VERIFICATION_FAILED⟩
    ∧ (⟨.totpVerificationFailed, OtpMessages.OTP_VERIFICATION_FAILED⟩ : Err)
        ≠ ⟨.totpAttemptsLimit, OtpMessages.OTP_TOO_MANY_REQUESTS⟩ :=
  ⟨rfl, by decide⟩

/-- Claim C4 (amended): after exactly `max_verify_attempts` (5) verify
calls on an issued record each of which found the live record and
mismatched (so the record was not consumed), the counter reads 5 and
every further verify call fails with the attempts-limit error
(`TotpVerificationAttemptsLimitError`), even when the candidate code is
correct — the second conjunct holds for every candidate whatsoever. -/
theorem verify_attempts_exhausted_after_five_mismatches
    (checkpw : String → String → Bool) (h : String) (ts : List String) (code : String)
    (hh : h ≠ "") (hlen : ts.length = 5) (hmiss : ∀ t ∈ ts, checkpw t h = false) :
    run_verify checkpw (some ⟨some h, some 0⟩) ts = some ⟨some h, some 5⟩
    ∧ bll_verify_totp checkpw (some ⟨some h, some 5⟩) code
        = (.error ⟨.totpAttemptsLimit, OtpMessages.OTP_TOO_MANY_REQUESTS⟩,
            some ⟨some h, some 5⟩) := by
  constructor
  · have := run_verify_mismatch_attempts checkpw h hh ts hmiss 0
      (by rw [hlen]; norm_num [MAX_VERIFY_ATTEMPTS])
    rw [this, hlen]
    norm_num
  · rfl

/-- Claim C4 witness: the amended theorem applied at a concrete run of
five mismatching codes followed by the correct one. -/
theorem verify_attempts_exhausted_after_five_mismatches_witness :
    run_verify (fun t h => t == h) (some ⟨some "999999", some 0⟩)
        ["000000", "000000", "000000", "000000", "000000"]
      = some ⟨some "999999", some 5⟩
    ∧ bll_verify_totp (fun t h => t == h) (some ⟨some "999999", some 5⟩) "999999"
        = (.error ⟨.totpAttemptsLimit, OtpMessages.OTP_TOO_MANY_REQUESTS⟩,
            some ⟨some "999999", some 5⟩) :=
  verify_attempts_exhausted_after_five_mismatches (fun t h => t == h) "999999"
    ["000000", "000000", "000000", "000000", "000000"] "999999"
    (by decide) (by rfl) (by decide)

/-- Claim C5: the spec says a code mismatch maps to an "incorrect code"
error distinct in kind and message from the "expired or never issued"
error. The code contradicts it: `TotpService.verify_totp` raises
`TotpVerificationFailedError(OTP_VERIFICATION_FAILED)` on a mismatch —
the very same class and message the missing-record path produces — while
the dedicated `OtpMessages.OTP_INCORRECT` message exists but is never
raised. First conjunct: live record, wrong code; second: no record at
all; both produce the identical error value. -/
theorem mismatch_error_identical_to_expiry_error :
    (service_verify_totp (fun t h => t == h) (fun _ => true) 6
      (some ⟨some "111111", some 0⟩) "a@b.com" "654321").1
      = .error ⟨.totpVerificationFailed, OtpMessages.OTP_VERIFICATION_FAILED⟩
    ∧ (service_verify_totp (fun t h => t == h) (fun _ => true) 6
      none "a@b.com" "654321").1
      = .error ⟨.totpVerificationFailed, OtpMessages.OTP_VERIFICATION_FAILED⟩
    ∧ OtpMessages.OTP_INCORRECT ≠ OtpMessages.OTP_VERIFICATION_FAILED :=
  ⟨rfl, rfl, by decide⟩

/-- Claim C6: issuing a second totp for an identity that already holds a
live record fails with `TotpAlreadySetError(OTP_ALREADY_ACTIVE)` and
leaves the record — its `hashed_totp` and `attempts` fields included —
untouched: `set_totp` raises on the `check_totp` guard before any store
write. The first conjunct shows the first issue succeeding from an empty
store; the third covers an arbitrary live record, not just a fresh
one. -/
theorem second_set_totp_fails_already_active (h1 h2 : String) (r : TotpHash) :
    bll_set_totp none h1 = (.ok true, some ⟨some h1, some 0⟩)
    ∧ bll_set_totp (some ⟨some h1, some 0⟩) h2
        = (.error ⟨.totpAlreadySet, OtpMessages.OTP_ALREADY_ACTIVE⟩, some ⟨some h1, some 0⟩)
    ∧ bll_set_totp (some r) h2
        = (.error ⟨.totpAlreadySet, OtpMessages.OTP_ALREADY_ACTIVE⟩, some r) :=
  ⟨rfl, rfl, rfl⟩

/-- Claim C7 counterexample: the claim quantifies over every live record
with a matching candidate. Refuting instance: a live record whose
counter already reads 5 (reachable by five mismatched calls) with the
matching code `123456` — verify raises the attempts-limit error instead
of returning true, since the budget check precedes the code
comparison. -/
theorem c7_counterexample_budget_blocks_matching_code :
    bll_verify_totp (fun t h => t == h) (some ⟨some "123456", some 5⟩) "123456"
      = (.error ⟨.totpAttemptsLimit, OtpMessages.OTP_TOO_MANY_REQUESTS⟩,
          some ⟨some "123456", some 5⟩)
    ∧ ("123456" == "123456") = true :=
  ⟨rfl, rfl⟩

/-- Claim C7 (amended): for every identity with a live record whose
attempt counter is below `max_verify_attempts` and a matching candidate
code, verify returns true and deletes the record, and an immediately
subsequent verify with the same (still correct) code fails with
`TotpVerificationFailedError`. -/
theorem successful_verify_consumes_record
    (checkpw : String → String → Bool) (h totp : String) (a : Int)
    (ha : a < MAX_VERIFY_ATTEMPTS) (hh : h ≠ "") (hmatch : checkpw totp h = true) :
    bll_verify_totp checkpw (some ⟨some h, some a⟩) totp = (.ok true, none)
    ∧ bll_verify_totp checkpw none totp
        = (.error ⟨.totpVerificationFailed, OtpMessages.OTP_VERIFICATION_FAILED⟩, none) := by
  constructor
  · rw [bll_verify_totp_live_step checkpw h totp a ha hh]
    simp [hmatch]
  · rfl

/-- Claim C7 witness: the amended theorem applied at a fresh record
holding `123456` with the matching candidate. -/
theorem successful_verify_consumes_record_witness :
    bll_verify_totp (fun t h => t == h) (some ⟨some "123456", some 0⟩) "123456"
      = (.ok true, none)
    ∧ bll_verify_totp (fun t h => t == h) none "123456"
        = (.error ⟨.totpVerificationFailed, OtpMessages.OTP_VERIFICATION_FAILED⟩, none) :=
  successful_verify_consumes_record (fun t h => t == h) "123456" "123456" 0
    (by decide) (by decide) (by decide)

/-- Claim C8: every verify call that passes the budget check and finds a
live record increments the counter by exactly one on a mismatch while
keeping the record and its hash (first conjunct; on a match the same
increment happens before the record is deleted, as
`bll_verify_totp_live_step` shows); hence after the k-th of N
consecutive mismatched calls on a fresh record (N below the limit) the
counter reads exactly k and the record is still present with its
`hashed_totp` unchanged (second conjunct). -/
theorem mismatched_verify_increments_attempts_and_keeps_record
    (checkpw : String → String → Bool) (h : String) (ts : List String)
    (hh : h ≠ "") (hmiss : ∀ t ∈ ts, checkpw t h = false) (hN : ts.length < 5) :
    (∀ (a : Int) (t : String), a < MAX_VERIFY_ATTEMPTS → checkpw t h = false →
        bll_verify_totp checkpw (some ⟨some h, some a⟩) t
          = (.ok false, some ⟨some h, some (a + 1)⟩))
    ∧ ∀ k : Nat, k ≤ ts.length →
        run_verify checkpw (some ⟨some h, some 0⟩) (ts.take k)
          = some ⟨some h, some (k : Int)⟩ := by
  constructor
  · intro a t ha hmt
    rw [bll_verify_totp_live_step checkpw h t a ha hh]
    simp [hmt]
  · intro k hk
    have hmiss' : ∀ t ∈ ts.take k, checkpw t h = false :=
      fun t ht => hmiss t (List.take_subset k ts ht)
    have hlen : (ts.take k).length = k := by
      rw [List.length_take, Nat.min_eq_left hk]
    have hrun := run_verify_mismatch_attempts checkpw h hh (ts.take k) hmiss' 0
      (by simp only [MAX_VERIFY_ATTEMPTS, hlen]; omega)
    rw [hrun, hlen]
    norm_num

/-- Claim C8 witness: the inductive conjunct applied at a fresh record
and two mismatching codes. -/
theorem mismatched_verify_increments_attempts_and_keeps_record_witness :
    run_verify (fun t h => t == h) (some ⟨some "123456", some 0⟩)
        (["111111", "222222"].take 2)
      = some ⟨some "123456", some ((2 : Nat) : Int)⟩ :=
  (mismatched_verify_increments_attempts_and_keeps_record (fun t h => t == h)
    "123456" ["111111", "222222"] (by decide) (by decide) (by decide)).2 2 (by decide)

/-- Claim C9: for an identity with no live record — never issued and
expired are both an absent key — every verify call fails with the
identical `TotpVerificationFailedError(OTP_VERIFICATION_FAILED)`: the
`get_attempts` sentinel for a missing key is `-1`, below the limit, so
the attempts-limit error can never fire and `get_totp` raises the
verification-failed error instead, for any candidate code and any
bcrypt behaviour. -/
theorem missing_record_verify_fails_uniformly
    (checkpw : String → String → Bool) (totp : String) :
    bll_verify_totp checkpw none totp
      = (.error ⟨.totpVerificationFailed, OtpMessages.OTP_VERIFICATION_FAILED⟩, none)
    ∧ get_attempts none = -1
    ∧ get_attempts none < MAX_VERIFY_ATTEMPTS
    ∧ (⟨.totpVerificationFailed, OtpMessages.OTP_VERIFICATION_FAILED⟩ : Err)
        ≠ ⟨.totpAttemptsLimit, OtpMessages.OTP_TOO_MANY_REQUESTS⟩ :=
  ⟨rfl, rfl, by decide, by decide⟩

/-- Claim C10: when the email matches no existing row, `handle_register`
reaches the create path and calls `create_user` with the keyword
arguments `is_active` and `is_verified`, which `create_user`'s signature
does not declare — the call raises `TypeError` before the insert runs,
so no brand-new email can complete registration. The second conjunct
checks the binding failure itself: the kwarg list does not bind to the
parameter list. -/
theorem register_new_email_raises_type_error
    (db : UserDb) (username email hashed_password : String)
    (hfresh : ∀ u ∈ db, u.email ≠ email) :
    handle_register db username email hashed_password
      = .error ⟨.typeError, TYPE_ERROR_UNEXPECTED_KWARG⟩
    ∧ create_user_call_binds = false := by
  refine ⟨?_, by decide⟩
  have hfilter : db.filter (fun u =>
      u.email == email && u.is_verified == true && u.is_active == true) = [] := by
    rw [List.filter_eq_nil_iff]
    intro u hu
    simp [hfresh u hu]
  unfold handle_register get_user_by_email
  rw [hfilter]
  rfl

/-- Claim C10 witness: the theorem applied at the empty table. -/
theorem register_new_email_raises_type_error_witness :
    handle_register [] "alice" "a@b.com" "HPW"
      = .error ⟨.typeError, TYPE_ERROR_UNEXPECTED_KWARG⟩
    ∧ create_user_call_binds = false :=
  register_new_email_raises_type_error [] "alice" "a@b.com" "HPW" (by simp)

end Rental
